import Mathlib

/-!
Shallow embedding of the text-extraction pipeline (`src/services/extractText.js`)
and the question-answering endpoint (`askQuestion` and the other document
controllers in `src/controllers/documentController.js`) of the docai-backend
repository, together with theorems settling the specification claims.

External effects (file reads, the pdf-parse / pdf2json / mammoth libraries,
the `pdftotext` subprocess, and the outbound `fetch` call) are modelled by an
explicit environment record giving the outcome each effect would produce for
the one file / request under consideration; JavaScript promise rejection and
thrown exceptions are modelled with `Except`, JavaScript `null`/`undefined`
results with `Option`.
-/

deriving instance DecidableEq for Except

namespace DocAI

/-- Environment for one call of `extractText` on a fixed file path: the
outcome of every external effect the chain can perform.

* `fileBytes`: byte content of the file; `none` models an unreadable file
  (every `fs.openSync`/`readSync` on it throws).
* `pdfParseResult`: what `pdf-parse` resolves with (`result?.text`, with a
  missing text field conflated into `""` exactly as `result?.text || ''`
  does); `none` models the dynamic import or the parse throwing.
* `pdf2jsonResult`: `pdf2json`'s outcome — `.ok` carries
  `getRawTextContent()` from the `pdfParser_dataReady` event, `.error`
  carries `errData.parserError` from the `pdfParser_dataError` event, which
  `parsePdf` turns into a promise rejection.
* `pdftotextRes`: the `spawnSync('pdftotext', ...)` result as
  `(res.status, res.stdout)` with JavaScript `null` as `none`; the outer
  `none` models `spawnSync` itself throwing.
* `mammothResult`: `result.value` of `mammoth.extractRawText`; `none` models
  the import or the extraction throwing (or an `undefined` value, which the
  code treats identically to a throw: it yields `null`). -/
structure ExtractEnv where
  fileBytes : Option (List Nat)
  pdfParseResult : Option String
  pdf2jsonResult : Except String String
  pdftotextRes : Option (Option Int × Option String)
  mammothResult : Option String
deriving Repr

/-- JavaScript `s.endsWith(pat)`: `pat` is a suffix of `s`. Modelled over
the character data so that it evaluates by kernel reduction. -/
def jsEndsWith (s pat : String) : Bool :=
  pat.data.isSuffixOf s.data

/-- JavaScript `s.trim()`: strip leading and trailing whitespace. -/
def jsTrim (s : String) : String :=
  String.mk
    (((s.data.dropWhile Char.isWhitespace).reverse.dropWhile Char.isWhitespace).reverse)

/-- The 5 magic bytes `%PDF-` checked by `looksLikePdf`. -/
def pdfMagic : List Nat := [37, 80, 68, 70, 45]

/-- `fs.readSync(fd, buf, 0, 5, 0)` into a zero-filled `Buffer.alloc(5)`:
the first five bytes of the file, zero-padded when the file is shorter. -/
def first5 (bytes : List Nat) : List Nat :=
  bytes.take 5 ++ List.replicate (5 - (bytes.take 5).length) 0

/-- `looksLikePdf` (extractText.js:44-54): reads the first 5 bytes and
compares with the literal `%PDF-`; any I/O failure is caught and yields
`false`. -/
def looksLikePdf (env : ExtractEnv) : Bool :=
  match env.fileBytes with
  | none => false
  | some bytes => first5 bytes == pdfMagic

/-- `parsePdfViaPdfParse` (extractText.js:20-30): resolves with
`result?.text || ''`; every failure is caught and converted to `''`. -/
def parsePdfViaPdfParse (env : ExtractEnv) : String :=
  match env.pdfParseResult with
  | some t => t
  | none => ""

/-- `parsePdf` (extractText.js:7-18): a promise that resolves with
`getRawTextContent()` or REJECTS with the parser error — note there is no
catch here. -/
def parsePdf (env : ExtractEnv) : Except String String :=
  env.pdf2jsonResult

/-- `parsePdfViaPdftotext` (extractText.js:32-42): returns `res.stdout` when
the subprocess exited with status 0 and produced stdout with non-empty trim,
`''` in every other case (including `spawnSync` throwing). -/
def parsePdfViaPdftotext (env : ExtractEnv) : String :=
  match env.pdftotextRes with
  | some (some 0, some s) => if (jsTrim s).length > 0 then s else ""
  | _ => ""

/-- The format a file is treated as. -/
inductive ExtractionFormat
  | pdf
  | docx
  | unknown
deriving DecidableEq, Repr

/-- The branch selection of `extractText` (extractText.js:61,75): PDF when
the path ends in `.pdf` or the magic probe succeeds, else DOCX when the path
ends in `.docx`, else UNKNOWN. -/
def classify (filePath : String) (env : ExtractEnv) : ExtractionFormat :=
  if jsEndsWith filePath ".pdf" || looksLikePdf env then .pdf
  else if jsEndsWith filePath ".docx" then .docx
  else .unknown

/-- The extraction strategies, for observing which ones a run invokes. -/
inductive Strategy
  | pdfParseLib
  | pdf2json
  | pdftotext
  | mammoth
deriving DecidableEq, Repr

/-- Outcome of the single DOCX strategy as the code post-processes it:
`result.value && result.value.trim() ? result.value : null`, with `null`
also on any throw. -/
def mammothOutcome (env : ExtractEnv) : Option String :=
  match env.mammothResult with
  | none => none
  | some v => if jsTrim v = "" then none else some v

/-- The PDF branch of `extractText` (extractText.js:62-72), instrumented
with the strategies invoked: `pdf-parse`, then — only when the first result
has empty trim — the un-caught `parsePdf` (pdf2json), whose rejection
propagates as `.error`, then — only when the second result also has empty
trim — `pdftotext`; finally `text && text.trim() ? text : null`. -/
def pdfChainRun (env : ExtractEnv) :
    List Strategy × Except String (Option String) :=
  let t1 := parsePdfViaPdfParse env
  if jsTrim t1 = "" then
    match parsePdf env with
    | .error e => ([.pdfParseLib, .pdf2json], .error e)
    | .ok t2 =>
      if jsTrim t2 = "" then
        let t3 := parsePdfViaPdftotext env
        ([.pdfParseLib, .pdf2json, .pdftotext],
          .ok (if jsTrim t3 = "" then none else some t3))
      else ([.pdfParseLib, .pdf2json], .ok (some t2))
  else ([.pdfParseLib], .ok (some t1))

/-- `extractText` (extractText.js:56-95), instrumented with the list of
strategies invoked. The result is `Except`: `.error` models the returned
promise rejecting (which happens exactly when the un-caught `parsePdf`
rejects), `.ok none` models resolving with `null`. -/
def extractTextRun (filePath : String) (env : ExtractEnv) :
    List Strategy × Except String (Option String) :=
  match classify filePath env with
  | .pdf => pdfChainRun env
  | .docx => ([.mammoth], .ok (mammothOutcome env))
  | .unknown => ([.mammoth], .ok (mammothOutcome env))

/-- `extractText`'s observable result. -/
def extractText (filePath : String) (env : ExtractEnv) :
    Except String (Option String) :=
  (extractTextRun filePath env).2

/-! ## Question-answering gateway (`askQuestion`, documentController.js:385-462) -/

/-- One text part of the upstream JSON body (`parts[i].text` may be absent). -/
structure Part where
  text : Option String
deriving DecidableEq, Repr

/-- `candidate.content` (`parts` may be absent). -/
structure GenContent where
  parts : Option (List Part)
deriving DecidableEq, Repr

/-- One element of `candidates` (`content` may be absent). -/
structure Candidate where
  content : Option GenContent
deriving DecidableEq, Repr

/-- The parsed upstream response body; only the `candidates` path the code
reads is modelled, every level optional. -/
structure GenBody where
  candidates : Option (List Candidate)
deriving DecidableEq, Repr

/-- The optional chain `data.candidates?.[0]?.content?.parts?.[0]?.text`. -/
def candidateText (d : GenBody) : Option String :=
  ((((d.candidates.bind List.head?).bind Candidate.content).bind
      GenContent.parts).bind List.head?).bind Part.text

/-- `data.candidates?.[0]?.content?.parts?.[0]?.text || 'No answer'`:
the placeholder also replaces an empty extracted string (both are falsy). -/
def extractAnswer (d : GenBody) : String :=
  match candidateText d with
  | some t => if t = "" then "No answer" else t
  | none => "No answer"

/-- An upstream HTTP response as the code observes it: `response.ok`,
`response.status`, and the result of `response.json()` (`none` models the
body failing to parse, i.e. `.json()` throwing). -/
structure FetchResp where
  ok : Bool
  status : Nat
  jsonBody : Option GenBody
deriving DecidableEq, Repr

/-- The parameters of one outbound `fetch` as built by `requestOnce`
(documentController.js:422-431): URL with the API key, POST, the JSON
payload `{contents:[{parts:[{text: prompt}]}]}` (represented by its one
text field, the prompt), and the 20000 ms abort timeout. -/
structure FetchReq where
  url : String
  method : String
  promptText : String
  timeoutMs : Nat
deriving DecidableEq, Repr

/-- The generation endpoint URL with the API key as query parameter. -/
def apiUrl (key : String) : String :=
  "https://generativelanguage.googleapis.com/v1beta/models/gemini-2.0-flash:generateContent?key="
    ++ key

/-- The request `requestOnce` sends (identical on both attempts). -/
def mkRequest (key prompt : String) : FetchReq :=
  { url := apiUrl key, method := "POST", promptText := prompt, timeoutMs := 20000 }

/-- `MAX_CHARS` (documentController.js:414). -/
def MAX_CHARS : Nat := 20000

/-- The truncation marker appended when the document text is clipped. -/
def truncMarker : String := "\n\n[...truncated...]"

/-- JavaScript `s.slice(0, n)`: the first `n` characters. -/
def jsSlice (s : String) (n : Nat) : String :=
  String.mk (s.data.take n)

/-- `text.length > MAX_CHARS ? text.slice(0, MAX_CHARS) + marker : text`
(documentController.js:415). -/
def clipText (text : String) : String :=
  if text.length > MAX_CHARS then jsSlice text MAX_CHARS ++ truncMarker else text

/-- Fixed prefix of the prompt template. -/
def promptHeader : String := "Answer the question based on the following document:\n\n"

/-- Fixed separator before the question in the prompt template. -/
def questionHeader : String := "\n\nQuestion: "

/-- The prompt string of documentController.js:416. -/
def buildPrompt (text question : String) : String :=
  promptHeader ++ clipText text ++ questionHeader ++ question

/-- The HTTP outcomes `askQuestion` can produce, in source order. -/
inductive AskOutcome
  | questionRequired
  | docNotFound
  | fileNotFound (path : String)
  | emptyFile
  | noText
  | unreachable (detail : String)
  | malformed
  | upstreamErr (status : Nat) (body : GenBody)
  | answer (text : String)
  | serverError
deriving DecidableEq, Repr

/-- The HTTP status code each outcome is sent with. -/
def statusOf : AskOutcome → Nat
  | .questionRequired => 400
  | .docNotFound => 404
  | .fileNotFound _ => 404
  | .emptyFile => 422
  | .noText => 422
  | .unreachable _ => 503
  | .malformed => 502
  | .upstreamErr s _ => s
  | .answer _ => 200
  | .serverError => 500

/-- Handling of a received response (documentController.js:448-457):
JSON-parse failure gives the 502 outcome; a parsed body with a non-ok
status is forwarded verbatim; otherwise the answer is extracted. -/
def handleResponse (r : FetchResp) : AskOutcome :=
  match r.jsonBody with
  | none => .malformed
  | some d => if r.ok then .answer (extractAnswer d) else .upstreamErr r.status d

/-- An observable network-side event of `askQuestion`: an outbound fetch or
the fixed backoff sleep. -/
inductive NetEvent
  | request (r : FetchReq)
  | sleep (ms : Nat)
deriving DecidableEq, Repr

/-- Whether a network event is an outbound request. -/
def NetEvent.isReq : NetEvent → Bool
  | .request _ => true
  | .sleep _ => false

/-- Number of outbound fetch attempts in an event trace. -/
def countRequests (trace : List NetEvent) : Nat :=
  trace.countP NetEvent.isReq

/-- A document row as `askQuestion` and the other controllers read it
(`userId` is nullable in the schema). -/
structure DocRecord where
  id : Int
  userId : Option Int
  filePath : String
deriving DecidableEq, Repr

/-- Environment for one `askQuestion` request.

* `question`: `req.body.question`, with `""` standing for every falsy value
  (missing or empty — the code treats them alike at line 389).
* `document`: the `findUnique` result.
* `fileExists` / `fileSize`: `fs.existsSync` and `fs.statSync(...).size`.
* `extractEnv`: the extraction environment for the document's file.
* `fetchResult`: outcome of the n-th outbound fetch attempt (`.error`
  models a transport-level rejection, including the 20 s abort). -/
structure AskEnv where
  question : String
  document : Option DocRecord
  fileExists : Bool
  fileSize : Nat
  extractEnv : ExtractEnv
  fetchResult : Nat → Except String FetchResp

/-- The validation and extraction stage of `askQuestion`
(documentController.js:387-412): everything before the gateway call.
Returns the extracted text, or the outcome returned early. A rejection of
`extractText` lands in the enclosing catch-all, which answers 500. -/
def preCheck (env : AskEnv) : Except AskOutcome String :=
  if env.question = "" then .error .questionRequired
  else
    match env.document with
    | none => .error .docNotFound
    | some doc =>
      if !env.fileExists then .error (.fileNotFound doc.filePath)
      else if env.fileSize == 0 then .error .emptyFile
      else
        match extractText doc.filePath env.extractEnv with
        | .error _ => .error .serverError
        | .ok none => .error .noText
        | .ok (some text) =>
          if jsTrim text = "" then .error .noText else .ok text

/-- The gateway stage (documentController.js:414-457): build the prompt,
attempt the fetch, on transport failure sleep 800 ms and retry once with
the identical request, on a second transport failure answer 503; any
received response goes to `handleResponse`. The trace records the outbound
requests and the backoff sleep. -/
def gatewayPhase (key question text : String)
    (fetchResult : Nat → Except String FetchResp) :
    AskOutcome × List NetEvent :=
  let req := mkRequest key (buildPrompt text question)
  match fetchResult 0 with
  | .ok r => (handleResponse r, [.request req])
  | .error _ =>
    match fetchResult 1 with
    | .ok r => (handleResponse r, [.request req, .sleep 800, .request req])
    | .error e2 => (.unreachable e2, [.request req, .sleep 800, .request req])

/-- `askQuestion` (documentController.js:385-462). `requesterId` is the
authenticated user's id (`req.user.id`); the handler never reads it. -/
def askQuestion (requesterId : Int) (key : String) (env : AskEnv) :
    AskOutcome × List NetEvent :=
  match preCheck env with
  | .error out => (out, [])
  | .ok text => gatewayPhase key env.question text env.fetchResult

/-! ## Ownership-checked controllers (status-code models) -/

/-- The ownership gate `!req.user || req.user.id !== doc.userId` shared by
the four owner-only handlers. -/
def isOwner (requester : Option Int) (docUserId : Option Int) : Bool :=
  match requester with
  | none => false
  | some uid => docUserId == some uid

/-- `getDocumentById` (documentController.js:112-134), as the status code it
answers: 400 invalid id, 404 missing, 403 non-owner, 200 otherwise. -/
def getDocumentById (requester : Option Int) (idValid : Bool)
    (doc : Option DocRecord) : Nat :=
  if !idValid then 400
  else
    match doc with
    | none => 404
    | some d => if isOwner requester d.userId then 200 else 403

/-- `updateDocumentMetadata` (documentController.js:187-219): 400 invalid
id, 400 missing/empty title (falsy), 404 missing doc, 403 non-owner,
200 otherwise. -/
def updateDocumentMetadata (requester : Option Int) (idValid : Bool)
    (title : Option String) (doc : Option DocRecord) : Nat :=
  if !idValid then 400
  else
    match title with
    | none => 400
    | some t =>
      if t = "" then 400
      else
        match doc with
        | none => 404
        | some d => if isOwner requester d.userId then 200 else 403

/-- `updateDocumentFile` (documentController.js:223-269): 400 invalid id,
400 missing file, 404 missing doc, 403 non-owner, 200 otherwise. -/
def updateDocumentFile (requester : Option Int) (idValid : Bool)
    (hasFile : Bool) (doc : Option DocRecord) : Nat :=
  if !idValid then 400
  else if !hasFile then 400
  else
    match doc with
    | none => 404
    | some d => if isOwner requester d.userId then 200 else 403

/-- `deleteDocument` (documentController.js:273-304): 400 invalid id, 404
missing doc, 403 non-owner, 204 otherwise. -/
def deleteDocument (requester : Option Int) (idValid : Bool)
    (doc : Option DocRecord) : Nat :=
  if !idValid then 400
  else
    match doc with
    | none => 404
    | some d => if isOwner requester d.userId then 204 else 403

/-! ## Concrete environments used by witnesses and counterexamples -/

/-- A zero-byte file saved with extension `.pdf`: the file is readable and
empty, `pdf-parse` throws on the empty buffer (caught, yields `""`), and
`pdf2json` emits `pdfParser_dataError`, which `parsePdf` converts into a
promise rejection. -/
def zeroBytePdfEnv : ExtractEnv :=
  { fileBytes := some []
  , pdfParseResult := none
  , pdf2jsonResult := .error "An error occurred while parsing the PDF."
  , pdftotextRes := some (some 1, some "")
  , mammothResult := none }

/-- An image-only PDF: every strategy runs and produces no text, and
`pdf2json` succeeds with whitespace-only raw content. -/
def imagePdfEnv : ExtractEnv :=
  { fileBytes := some [37, 80, 68, 70, 45, 49]
  , pdfParseResult := some ""
  , pdf2jsonResult := .ok "\r\n"
  , pdftotextRes := some (some 0, some " ")
  , mammothResult := none }

/-- A well-formed text PDF on which the first strategy already succeeds. -/
def goodPdfEnv : ExtractEnv :=
  { fileBytes := some [37, 80, 68, 70, 45, 49, 46, 52]
  , pdfParseResult := some "Invoice Total: $42"
  , pdf2jsonResult := .ok "Invoice Total: $42"
  , pdftotextRes := some (some 0, some "Invoice Total: $42")
  , mammothResult := none }

/-- A PDF file uploaded under a `.docx` (or missing) name: the magic bytes
`%PDF-` are present. -/
def disguisedPdfEnv : ExtractEnv :=
  { fileBytes := some [37, 80, 68, 70, 45, 49, 46, 55]
  , pdfParseResult := some "hello"
  , pdf2jsonResult := .ok "hello"
  , pdftotextRes := none
  , mammothResult := none }

/-- A DOCX file from which mammoth extracts a paragraph. -/
def goodDocxEnv : ExtractEnv :=
  { fileBytes := some [80, 75, 3, 4]
  , pdfParseResult := none
  , pdf2jsonResult := .error "not a pdf"
  , pdftotextRes := none
  , mammothResult := some "Hello paragraph" }

/-- An `askQuestion` request that reaches the gateway and sees both fetch
attempts fail at transport level. -/
def bothFailEnv : AskEnv :=
  { question := "What is the total?"
  , document := some { id := 1, userId := some 2, filePath := "sample.pdf" }
  , fileExists := true
  , fileSize := 120
  , extractEnv := goodPdfEnv
  , fetchResult := fun _ => .error "fetch failed" }

/-- An `askQuestion` request whose first fetch attempt succeeds with an ok
response whose body lacks the whole `candidates` structure. -/
def okMissingBodyEnv : AskEnv :=
  { question := "What is the total?"
  , document := some { id := 1, userId := some 2, filePath := "sample.pdf" }
  , fileExists := true
  , fileSize := 120
  , extractEnv := goodPdfEnv
  , fetchResult := fun _ => .ok { ok := true, status := 200, jsonBody := some { candidates := none } } }

/-- A 20001-character document text, used to exercise clipping. -/
def longText : String := String.mk (List.replicate 20001 'a')

/-! ## Helper lemmas -/

/-- A file classified PDF runs the PDF chain. -/
theorem extractTextRun_of_pdf {path : String} {env : ExtractEnv}
    (h : classify path env = .pdf) :
    extractTextRun path env = pdfChainRun env := by
  unfold extractTextRun; rw [h]

/-- A file classified DOCX runs the single mammoth strategy. -/
theorem extractTextRun_of_docx {path : String} {env : ExtractEnv}
    (h : classify path env = .docx) :
    extractTextRun path env = ([.mammoth], .ok (mammothOutcome env)) := by
  unfold extractTextRun; rw [h]

/-- A file classified UNKNOWN runs the single mammoth strategy. -/
theorem extractTextRun_of_unknown {path : String} {env : ExtractEnv}
    (h : classify path env = .unknown) :
    extractTextRun path env = ([.mammoth], .ok (mammothOutcome env)) := by
  unfold extractTextRun; rw [h]

/-! ## Claim theorems: extraction -/

/-- C1 counterexample: for a zero-byte file stored as `upload.pdf` — where
`pdf-parse` fails (absorbed into `""`) and `pdf2json` emits its parser
error — `extractText` returns a REJECTED promise carrying the pdf2json
error instead of the absence signal `null`: the claim that every internal
strategy failure is absorbed is false, because the `parsePdf` call at
extractText.js:65 is not wrapped in any try/catch. -/
theorem C1_counterexample :
    zeroBytePdfEnv.fileBytes = some [] ∧
    extractText "upload.pdf" zeroBytePdfEnv
      = .error "An error occurred while parsing the PDF." := by
  constructor
  · rfl
  · decide

/-- C1 (amended): failures of the pdf-parse, pdftotext and DOCX strategies
are absorbed, but a failure of the pdf2json strategy propagates:
`extractText` rejects exactly when the file is classified PDF, the
pdf-parse result is empty after trimming, and pdf2json errors; when
pdf2json succeeds, a PDF on which every strategy yields only
empty/whitespace text produces the absence signal `null`. -/
theorem C1_rejection_characterization (path : String) (env : ExtractEnv) :
    ((∃ e, extractText path env = .error e) ↔
      (classify path env = .pdf ∧ jsTrim (parsePdfViaPdfParse env) = "" ∧
        ∃ e, parsePdf env = .error e))
    ∧ (∀ t2, classify path env = .pdf → jsTrim (parsePdfViaPdfParse env) = "" →
        parsePdf env = .ok t2 → jsTrim t2 = "" →
        jsTrim (parsePdfViaPdftotext env) = "" →
        extractText path env = .ok none) := by
  constructor
  · unfold extractText
    cases hc : classify path env with
    | pdf =>
      rw [extractTextRun_of_pdf hc]
      simp only [pdfChainRun]
      by_cases h1 : jsTrim (parsePdfViaPdfParse env) = ""
      · cases hp : parsePdf env with
        | ok t2 =>
          by_cases h2 : jsTrim t2 = "" <;> simp [h1, hp, h2]
        | error e => simp [h1, hp]
      · simp [h1]
    | docx =>
      rw [extractTextRun_of_docx hc]; simp [hc]
    | unknown =>
      rw [extractTextRun_of_unknown hc]; simp [hc]
  · intro t2 hc h1 hp h2 h3
    unfold extractText
    rw [extractTextRun_of_pdf hc]
    simp [pdfChainRun, h1, hp, h2, h3]

/-- C1 amended, witness: an image-only PDF on which all three strategies
produce only empty/whitespace text (and pdf2json succeeds) yields `null`. -/
theorem C1_amended_witness :
    extractText "scan.pdf" imagePdfEnv = .ok none :=
  (C1_rejection_characterization "scan.pdf" imagePdfEnv).2 "\r\n"
    (by decide) (by decide) (by decide) (by decide) (by decide)

/-- C2: for a file classified PDF the strategies run in the fixed order
pdf-parse, then pdf2json only when the first result trims to empty, then
pdftotext only when the second does too, short-circuiting at the first
result with non-empty trim. -/
theorem C2_pdf_chain_order (path : String) (env : ExtractEnv)
    (hpdf : classify path env = .pdf) :
    (jsTrim (parsePdfViaPdfParse env) ≠ "" →
      extractTextRun path env
        = ([.pdfParseLib], .ok (some (parsePdfViaPdfParse env))))
    ∧ (∀ t2, jsTrim (parsePdfViaPdfParse env) = "" → parsePdf env = .ok t2 →
        jsTrim t2 ≠ "" →
        extractTextRun path env = ([.pdfParseLib, .pdf2json], .ok (some t2)))
    ∧ (∀ t2, jsTrim (parsePdfViaPdfParse env) = "" → parsePdf env = .ok t2 →
        jsTrim t2 = "" →
        extractTextRun path env
          = ([.pdfParseLib, .pdf2json, .pdftotext],
              .ok (if jsTrim (parsePdfViaPdftotext env) = "" then none
                   else some (parsePdfViaPdftotext env)))) := by
  rw [extractTextRun_of_pdf hpdf]
  refine ⟨?_, ?_, ?_⟩
  · intro h1; simp [pdfChainRun, h1]
  · intro t2 h1 hp h2; simp [pdfChainRun, h1, hp, h2]
  · intro t2 h1 hp h2; simp [pdfChainRun, h1, hp, h2]

/-- C2 witness: on a PDF where pdf-parse already yields text, only the
first strategy runs and its text is returned. -/
theorem C2_witness :
    extractTextRun "sample.pdf" goodPdfEnv
      = ([.pdfParseLib], .ok (some "Invoice Total: $42")) :=
  (C2_pdf_chain_order "sample.pdf" goodPdfEnv (by decide)).1 (by decide)

/-- C5: classification is deterministic from path and leading bytes — PDF
iff the path ends in `.pdf` or the 5-byte magic probe matches `%PDF-` (the
magic wins regardless of extension), else DOCX iff the path ends in
`.docx`, else UNKNOWN; the probe depends only on the first 5 bytes and an
unreadable file with no recognized extension classifies UNKNOWN. -/
theorem C5_classification (path : String) (env : ExtractEnv) :
    (classify path env = .pdf ↔
      (jsEndsWith path ".pdf" = true ∨ looksLikePdf env = true))
    ∧ (looksLikePdf env = true ↔
      ∃ bytes, env.fileBytes = some bytes ∧ first5 bytes = pdfMagic)
    ∧ (looksLikePdf env = true → classify path env = .pdf)
    ∧ (classify path env ≠ .pdf →
      (classify path env = .docx ↔ jsEndsWith path ".docx" = true))
    ∧ (∀ bytes bytes2 : List Nat, bytes.take 5 = bytes2.take 5 →
        looksLikePdf { env with fileBytes := some bytes }
          = looksLikePdf { env with fileBytes := some bytes2 })
    ∧ (env.fileBytes = none → classify path env
        = if jsEndsWith path ".pdf" then .pdf
          else if jsEndsWith path ".docx" then .docx else .unknown) := by
  refine ⟨?_, ?_, ?_, ?_, ?_, ?_⟩
  · cases hp : jsEndsWith path ".pdf" with
    | true => simp [classify, hp]
    | false =>
      cases hl : looksLikePdf env with
      | true => simp [classify, hl]
      | false =>
        simp [classify, hp, hl]
        split <;> simp
  · unfold looksLikePdf
    cases hb : env.fileBytes with
    | none => simp
    | some bytes => simp [beq_iff_eq]
  · intro h
    simp [classify, h]
  · intro hne
    cases hp : jsEndsWith path ".pdf" with
    | true => exact absurd (by simp [classify, hp]) hne
    | false =>
      cases hl : looksLikePdf env with
      | true => exact absurd (by simp [classify, hl]) hne
      | false =>
        cases hdocx : jsEndsWith path ".docx" <;>
          simp [classify, hp, hl, hdocx]
  · intro bytes bytes2 h
    simp [looksLikePdf, first5, h]
  · intro hb
    simp [classify, looksLikePdf, hb]

/-- C5 witness: a file named `report.docx` whose first 5 bytes are `%PDF-`
is classified PDF. -/
theorem C5_witness :
    classify "report.docx" disguisedPdfEnv = .pdf :=
  (C5_classification "report.docx" disguisedPdfEnv).2.2.1 (by decide)

/-- C8: whenever `extractText` resolves with a string (not `null`), that
string has non-empty trim — empty or whitespace-only strategy output is
converted to `null` exactly like total failure. -/
theorem C8_trim_invariant (path : String) (env : ExtractEnv) (s : String)
    (h : extractText path env = .ok (some s)) : jsTrim s ≠ "" := by
  unfold extractText at h
  cases hc : classify path env with
  | pdf =>
    rw [extractTextRun_of_pdf hc] at h
    by_cases h1 : jsTrim (parsePdfViaPdfParse env) = ""
    · cases hp : parsePdf env with
      | error e => simp [pdfChainRun, h1, hp] at h
      | ok t2 =>
        by_cases h2 : jsTrim t2 = ""
        · by_cases h3 : jsTrim (parsePdfViaPdftotext env) = ""
          · simp [pdfChainRun, h1, hp, h2, h3] at h
          · simp [pdfChainRun, h1, hp, h2, h3] at h
            subst h; exact h3
        · simp [pdfChainRun, h1, hp, h2] at h
          subst h; exact h2
    · simp [pdfChainRun, h1] at h
      subst h; exact h1
  | docx =>
    rw [extractTextRun_of_docx hc] at h
    cases hm : env.mammothResult with
    | none => simp [mammothOutcome, hm] at h
    | some v =>
      by_cases h2 : jsTrim v = ""
      · simp [mammothOutcome, hm, h2] at h
      · simp [mammothOutcome, hm, h2] at h
        subst h; exact h2
  | unknown =>
    rw [extractTextRun_of_unknown hc] at h
    cases hm : env.mammothResult with
    | none => simp [mammothOutcome, hm] at h
    | some v =>
      by_cases h2 : jsTrim v = ""
      · simp [mammothOutcome, hm, h2] at h
      · simp [mammothOutcome, hm, h2] at h
        subst h; exact h2

/-- C8 witness: a concrete successful extraction yields text with
non-empty trim. -/
theorem C8_witness : jsTrim "Invoice Total: $42" ≠ "" :=
  C8_trim_invariant "sample.pdf" goodPdfEnv "Invoice Total: $42" (by decide)

/-- C9: a DOCX-classified file runs exactly the single mammoth strategy;
an UNKNOWN-classified file runs that same strategy as last resort; a
failing or empty/whitespace mammoth result yields `null`. -/
theorem C9_docx_unknown_single_strategy (path : String) (env : ExtractEnv) :
    (classify path env = .docx →
      extractTextRun path env = ([.mammoth], .ok (mammothOutcome env)))
    ∧ (classify path env = .unknown →
      extractTextRun path env = ([.mammoth], .ok (mammothOutcome env)))
    ∧ (env.mammothResult = none → mammothOutcome env = none)
    ∧ (∀ v, env.mammothResult = some v → jsTrim v = "" →
        mammothOutcome env = none) := by
  refine ⟨extractTextRun_of_docx, extractTextRun_of_unknown, ?_, ?_⟩
  · intro h; simp [mammothOutcome, h]
  · intro v hv he; simp [mammothOutcome, hv, he]

/-- C9 witness: a concrete DOCX extraction runs only mammoth and returns
its paragraph text. -/
theorem C9_witness :
    extractTextRun "report.docx" goodDocxEnv
      = ([.mammoth], .ok (some "Hello paragraph")) :=
  (C9_docx_unknown_single_strategy "report.docx" goodDocxEnv).1 (by decide)

/-- `askQuestion` after a passing pre-check is the gateway phase. -/
theorem askQuestion_of_ok {env : AskEnv} {text : String}
    (h : preCheck env = .ok text) (uid : Int) (key : String) :
    askQuestion uid key env
      = gatewayPhase key env.question text env.fetchResult := by
  unfold askQuestion; rw [h]

/-- `askQuestion` after a failing pre-check returns early with no fetch. -/
theorem askQuestion_of_error {env : AskEnv} {out : AskOutcome}
    (h : preCheck env = .error out) (uid : Int) (key : String) :
    askQuestion uid key env = (out, []) := by
  unfold askQuestion; rw [h]

/-- The length of the long sample text. -/
theorem longText_length : longText.length = 20001 := by
  rw [longText, String.length_mk, List.length_replicate]

/-! ## Claim theorems: gateway and controllers -/

/-- C3: every execution of `askQuestion` makes at most two outbound
attempts; when the first attempt fails at transport level and the gateway
was reached, the trace is exactly request, 800 ms sleep, and one retry
with the identical request; when both attempts fail the outcome is the
`UpstreamUnreachable` failure sent with status 503. -/
theorem C3_retry_bounded (requesterId : Int) (key : String) (env : AskEnv) :
    countRequests (askQuestion requesterId key env).2 ≤ 2
    ∧ (∀ e1, env.fetchResult 0 = .error e1 →
        (askQuestion requesterId key env).2 ≠ [] →
        ∃ r, (askQuestion requesterId key env).2
          = [.request r, .sleep 800, .request r])
    ∧ (∀ e1 e2, env.fetchResult 0 = .error e1 →
        env.fetchResult 1 = .error e2 →
        (askQuestion requesterId key env).2 ≠ [] →
        (askQuestion requesterId key env).1 = .unreachable e2
        ∧ statusOf (askQuestion requesterId key env).1 = 503) := by
  cases hpre : preCheck env with
  | error out =>
    rw [askQuestion_of_error hpre]
    refine ⟨by simp [countRequests], ?_, ?_⟩
    · intro e1 _ hne; exact absurd rfl hne
    · intro e1 e2 _ _ hne; exact absurd rfl hne
  | ok text =>
    rw [askQuestion_of_ok hpre]
    cases hf0 : env.fetchResult 0 with
    | ok r =>
      refine ⟨?_, ?_, ?_⟩
      · simp [gatewayPhase, hf0, countRequests, List.countP_cons,
          List.countP_nil, NetEvent.isReq]
      · intro e1 he1; simp at he1
      · intro e1 e2 he1; simp at he1
    | error e0 =>
      cases hf1 : env.fetchResult 1 with
      | ok r =>
        refine ⟨?_, ?_, ?_⟩
        · simp [gatewayPhase, hf0, hf1, countRequests, List.countP_cons,
            List.countP_nil, NetEvent.isReq]
        · intro e1 he1 hne
          exact ⟨mkRequest key (buildPrompt text env.question),
            by simp [gatewayPhase, hf0, hf1]⟩
        · intro e1 e2 he1 he2; simp at he2
      | error e0b =>
        refine ⟨?_, ?_, ?_⟩
        · simp [gatewayPhase, hf0, hf1, countRequests, List.countP_cons,
            List.countP_nil, NetEvent.isReq]
        · intro e1 he1 hne
          exact ⟨mkRequest key (buildPrompt text env.question),
            by simp [gatewayPhase, hf0, hf1]⟩
        · intro e1 e2 he1 he2 hne
          have he : e0b = e2 := by injection he2
          subst he
          constructor
          · simp [gatewayPhase, hf0, hf1]
          · simp [gatewayPhase, hf0, hf1, statusOf]

/-- C3 witness: with both fetch attempts failing, `askQuestion` answers
the unreachable outcome with status 503. -/
theorem C3_witness :
    (askQuestion 7 "key" bothFailEnv).1 = .unreachable "fetch failed"
    ∧ statusOf (askQuestion 7 "key" bothFailEnv).1 = 503 :=
  (C3_retry_bounded 7 "key" bothFailEnv).2.2 "fetch failed" "fetch failed"
    rfl rfl (by decide)

/-- C4: document text longer than 20000 characters is embedded in the
prompt as exactly its first 20000 characters followed by the truncation
marker (so the clipped portion has length exactly 20000 plus the marker
length), and text of at most 20000 characters is embedded unchanged. -/
theorem C4_prompt_clipping (text question : String) :
    (text.length > MAX_CHARS →
      buildPrompt text question
        = promptHeader ++ (jsSlice text MAX_CHARS ++ truncMarker)
            ++ questionHeader ++ question
      ∧ (jsSlice text MAX_CHARS).length = MAX_CHARS
      ∧ (clipText text).length = MAX_CHARS + truncMarker.length)
    ∧ (text.length ≤ MAX_CHARS →
      buildPrompt text question
        = promptHeader ++ text ++ questionHeader ++ question) := by
  constructor
  · intro h
    have hc : clipText text = jsSlice text MAX_CHARS ++ truncMarker := by
      simp [clipText, h]
    have hdata : text.data.length = text.length := rfl
    have hslice : (jsSlice text MAX_CHARS).length = MAX_CHARS := by
      simp only [jsSlice, String.length_mk, List.length_take]
      omega
    refine ⟨?_, hslice, ?_⟩
    · unfold buildPrompt
      rw [hc]
    · rw [hc, String.length_append, hslice]
  · intro h
    unfold buildPrompt clipText
    rw [if_neg (by omega)]

/-- C4 witness: a 20001-character text is clipped to its first 20000
characters plus the marker; a short text is embedded unchanged. -/
theorem C4_witness :
    buildPrompt longText "Q"
      = promptHeader ++ (jsSlice longText MAX_CHARS ++ truncMarker)
          ++ questionHeader ++ "Q"
    ∧ buildPrompt "doc" "Q" = promptHeader ++ "doc" ++ questionHeader ++ "Q" :=
  ⟨((C4_prompt_clipping longText "Q").1
      (by rw [longText_length]; decide)).1,
   (C4_prompt_clipping "doc" "Q").2 (by decide)⟩

/-- C6: when the gateway was reached and the upstream HTTP response is ok
with a parseable body, `askQuestion` always answers with success status
200; when the candidates/content/parts/text structure is absent, the
answer is the literal placeholder. -/
theorem C6_success_placeholder (requesterId : Int) (key text : String)
    (env : AskEnv) (r : FetchResp) (d : GenBody)
    (hpre : preCheck env = .ok text)
    (h0 : env.fetchResult 0 = .ok r)
    (hok : r.ok = true) (hbody : r.jsonBody = some d) :
    (∃ a, (askQuestion requesterId key env).1 = .answer a)
    ∧ statusOf (askQuestion requesterId key env).1 = 200
    ∧ (candidateText d = none →
        (askQuestion requesterId key env).1 = .answer "No answer") := by
  rw [askQuestion_of_ok hpre]
  have hout : (gatewayPhase key env.question text env.fetchResult).1
      = .answer (extractAnswer d) := by
    simp [gatewayPhase, h0, handleResponse, hbody, hok]
  refine ⟨⟨extractAnswer d, hout⟩, by rw [hout]; rfl, ?_⟩
  · intro hnone
    rw [hout]
    simp [extractAnswer, hnone]

/-- C6 witness: an ok response whose body has no `candidates` yields the
placeholder answer. -/
theorem C6_witness :
    (askQuestion 7 "key" okMissingBodyEnv).1 = .answer "No answer" :=
  (C6_success_placeholder 7 "key" "Invoice Total: $42" okMissingBodyEnv
      { ok := true, status := 200, jsonBody := some { candidates := none } }
      { candidates := none } (by decide) rfl rfl rfl).2.2 rfl

/-- C7: once a response is received, an unparseable body yields the 502
malformed outcome, and a parsed body with a non-ok status is forwarded
with that exact status code and the parsed body as payload; the response
handling is what `askQuestion` answers when the first attempt returns. -/
theorem C7_response_handling (r : FetchResp) :
    (r.jsonBody = none →
      handleResponse r = .malformed ∧ statusOf (handleResponse r) = 502)
    ∧ (∀ d, r.jsonBody = some d → r.ok = false →
        handleResponse r = .upstreamErr r.status d
        ∧ statusOf (handleResponse r) = r.status)
    ∧ (∀ (requesterId : Int) (key text : String) (env : AskEnv),
        preCheck env = .ok text → env.fetchResult 0 = .ok r →
        (askQuestion requesterId key env).1 = handleResponse r) := by
  refine ⟨?_, ?_, ?_⟩
  · intro hnone
    constructor
    · simp [handleResponse, hnone]
    · simp [handleResponse, hnone, statusOf]
  · intro d hd hok
    constructor
    · simp [handleResponse, hd, hok]
    · simp [handleResponse, hd, hok, statusOf]
  · intro requesterId key text env hpre h0
    rw [askQuestion_of_ok hpre]
    simp [gatewayPhase, h0]

/-- C7 witness: a 429 response with a parsed body is forwarded as 429 with
that body; an unparseable body yields the malformed outcome. -/
theorem C7_witness :
    handleResponse { ok := false, status := 429, jsonBody := some { candidates := some [] } }
      = .upstreamErr 429 { candidates := some [] }
    ∧ handleResponse { ok := true, status := 200, jsonBody := none } = .malformed :=
  ⟨((C7_response_handling
      { ok := false, status := 429, jsonBody := some { candidates := some [] } }).2.1
      { candidates := some [] } rfl rfl).1,
   ((C7_response_handling { ok := true, status := 200, jsonBody := none }).1 rfl).1⟩

/-- C10 (implicit): `askQuestion` performs no ownership check — its result,
including the trace of outbound calls, is identical for every requester id,
and none of its own early-exit outcomes carries status 403 — whereas
`getDocumentById`, `updateDocumentMetadata`, `updateDocumentFile` and
`deleteDocument` all answer 403 for a requester who is not the owner. -/
theorem C10_no_ownership_check (uid uid2 : Int) (key : String) (env : AskEnv) :
    askQuestion uid key env = askQuestion uid2 key env
    ∧ (∀ out, preCheck env = .error out → statusOf out ≠ 403)
    ∧ (∀ (ruid : Int) (d : DocRecord), d.userId ≠ some ruid →
        getDocumentById (some ruid) true (some d) = 403
        ∧ updateDocumentMetadata (some ruid) true (some "New title") (some d) = 403
        ∧ updateDocumentFile (some ruid) true true (some d) = 403
        ∧ deleteDocument (some ruid) true (some d) = 403) := by
  refine ⟨rfl, ?_, ?_⟩
  · intro out h
    unfold preCheck at h
    split at h
    · cases h; simp [statusOf]
    · split at h
      · cases h; simp [statusOf]
      · split at h
        · cases h; simp [statusOf]
        · split at h
          · cases h; simp [statusOf]
          · split at h
            · cases h; simp [statusOf]
            · cases h; simp [statusOf]
            · split at h
              · cases h; simp [statusOf]
              · exact absurd h (by simp)
  · intro ruid d hne
    have hb : (d.userId == some ruid) = false := beq_eq_false_iff_ne.mpr hne
    refine ⟨?_, ?_, ?_, ?_⟩ <;>
      simp [getDocumentById, updateDocumentMetadata, updateDocumentFile,
        deleteDocument, isOwner, hb]

/-- C10 witness: a non-owner requester gets 403 from the ownership-checked
handlers. -/
theorem C10_witness :
    getDocumentById (some 1) true
      (some { id := 5, userId := some 2, filePath := "f.pdf" }) = 403
    ∧ deleteDocument (some 1) true
      (some { id := 5, userId := some 2, filePath := "f.pdf" }) = 403 :=
  ⟨((C10_no_ownership_check 1 2 "key" bothFailEnv).2.2 1
      { id := 5, userId := some 2, filePath := "f.pdf" } (by decide)).1,
   ((C10_no_ownership_check 1 2 "key" bothFailEnv).2.2 1
      { id := 5, userId := some 2, filePath := "f.pdf" } (by decide)).2.2.2⟩

end DocAI
